import Mathlib

/-!
Shallow embedding of the geometric reference-frame transform engine of the
Intelligent-Driving-System repository, together with theorems settling the
frozen claims about it.

Part I embeds `HW2/e2e_driving/data.py` (the batch 2D frame transform
`transform_2d_points` and the dataset item accessor `CARLA_Data.__getitem__`).
Part II embeds `HW2/scenario_runner/srunner/scenariomanager/actorcontrols/
simple_vehicle_control.py` (`SimpleVehicleControl.run_step` and
`SimpleVehicleControl._set_new_velocity`).

Python floats are modelled as real numbers; a numpy NaN cell is modelled by
`Option ℝ` with `none` standing for NaN.  Fallible Python code (a raised
`ZeroDivisionError`, `AssertionError` or `IndexError`) is modelled by an
`Option` result, `none` standing for the raised exception.
-/

open Real

/-- A 3D point; models both a row of the `xyz` array in
`transform_2d_points` and a `carla.Location`. -/
structure Pt3 where
  x : ℝ
  y : ℝ
  z : ℝ

/-- A 3×3 matrix given by its nine entries, row major; models the
`np.matrix` literals of `transform_2d_points`. -/
structure Mat3 where
  a : ℝ
  b : ℝ
  c : ℝ
  d : ℝ
  e : ℝ
  f : ℝ
  g : ℝ
  h : ℝ
  i : ℝ

/-- Determinant of a 3×3 matrix (cofactor expansion along the first row),
as computed by `np.linalg.inv`'s underlying mathematics. -/
noncomputable def det3 (m : Mat3) : ℝ :=
  m.a * (m.e * m.i - m.f * m.h) - m.b * (m.d * m.i - m.f * m.g)
    + m.c * (m.d * m.h - m.e * m.g)

/-- Inverse of a 3×3 matrix by the adjugate formula: the mathematical value
computed by `np.linalg.inv(r2_to_world)` in `transform_2d_points`. -/
noncomputable def inv3 (m : Mat3) : Mat3 :=
  let dt := det3 m
  { a := (m.e * m.i - m.f * m.h) / dt
    b := -(m.b * m.i - m.c * m.h) / dt
    c := (m.b * m.f - m.c * m.e) / dt
    d := -(m.d * m.i - m.f * m.g) / dt
    e := (m.a * m.i - m.c * m.g) / dt
    f := -(m.a * m.f - m.c * m.d) / dt
    g := (m.d * m.h - m.e * m.g) / dt
    h := -(m.a * m.h - m.b * m.g) / dt
    i := (m.a * m.e - m.b * m.d) / dt }

/-- Apply a 3×3 matrix to a column vector `(x, y, z)`; models the
`matrix @ xy1.T` products of `transform_2d_points` one column at a time. -/
noncomputable def apply3 (m : Mat3) (p : Pt3) : Pt3 :=
  { x := m.a * p.x + m.b * p.y + m.c * p.z
    y := m.d * p.x + m.e * p.y + m.f * p.z
    z := m.g * p.x + m.h * p.y + m.i * p.z }

/-- The matrix `np.matrix([[c, s, t_x], [-s, c, t_y], [0, 0, 1]])` with
`c, s = np.cos(r), np.sin(r)` built (twice) inside `transform_2d_points`. -/
noncomputable def rToWorld (r tx ty : ℝ) : Mat3 :=
  { a := Real.cos r, b := Real.sin r, c := tx
    d := -Real.sin r, e := Real.cos r, f := ty
    g := 0, h := 0, i := 1 }

/-- `transform_2d_points(xyz, r1, t1_x, t1_y, r2, t2_x, t2_y)` from
`e2e_driving/data.py`: force `z = 1`, map through frame 1's
rotation+translation to world, map through the inverse of frame 2's
rotation+translation, and restore the original `z` column. -/
noncomputable def transform_2d_points (xyz : List Pt3)
    (r1 t1_x t1_y r2 t2_x t2_y : ℝ) : List Pt3 :=
  xyz.map fun p =>
    let xy1 : Pt3 := { x := p.x, y := p.y, z := 1 }
    let world := apply3 (rToWorld r1 t1_x t1_y) xy1
    let out := apply3 (inv3 (rToWorld r2 t2_x t2_y)) world
    { x := out.x, y := out.y, z := p.z }

/-- A 2×2 matrix, row major; models the rotation matrix `R` built inside
`CARLA_Data.__getitem__`. -/
structure Mat2 where
  a : ℝ
  b : ℝ
  c : ℝ
  d : ℝ

/-- The rotation matrix
`np.array([[cos φ, -sin φ], [sin φ, cos φ]])` of `__getitem__`
(where `φ = np.pi/2 + ego_theta`). -/
noncomputable def rot2 (phi : ℝ) : Mat2 :=
  { a := Real.cos phi, b := -Real.sin phi
    c := Real.sin phi, d := Real.cos phi }

/-- `m.dot(v)` for a 2×2 matrix and a 2-vector. -/
noncomputable def mat2vec (m : Mat2) (v : ℝ × ℝ) : ℝ × ℝ :=
  (m.a * v.1 + m.b * v.2, m.c * v.1 + m.d * v.2)

/-- `m.T.dot(v)` for a 2×2 matrix and a 2-vector, as in
`R.T.dot(local_command_point)` of `__getitem__`. -/
noncomputable def mat2Tvec (m : Mat2) (v : ℝ × ℝ) : ℝ × ℝ :=
  (m.a * v.1 + m.c * v.2, m.b * v.1 + m.d * v.2)

/-- A numpy float cell that may hold NaN; `none` models NaN. -/
abbrev NpFloat := Option ℝ

/-- The per-sample storage of `CARLA_Data` that `__getitem__` reads
or mutates.  Per-sample numpy rows are modelled by their accessed cells:
`x`, `y`, `theta` hold the `[index][0]` cell, `front_img` holds an opaque
id for the `[index][0]` path.  `img_aug` and `_batch_read_number` are the
corresponding attributes set in `__init__`. -/
structure Dataset where
  front_img : List ℕ
  x : List ℝ
  y : List ℝ
  theta : List NpFloat
  speed : List ℝ
  future_x : List (List ℝ)
  future_y : List (List ℝ)
  x_command : List ℝ
  y_command : List ℝ
  command : List ℤ
  img_aug : Bool
  batch_read_number : ℕ

/-- The dict returned by `CARLA_Data.__getitem__`.  The image pipeline
(file open, augmentation, tensor transform) is an external collaborator;
what the accessor itself contributes is the augmenter seed, so
`front_img_seed` records the `_batch_read_number` passed to
`augmenter(...)` when `img_aug` is set, and `none` otherwise. -/
structure ItemData where
  front_img_seed : Option ℕ
  waypoints : List (ℝ × ℝ)
  target_point : ℝ × ℝ
  target_point_aim : ℝ × ℝ
  speed : ℝ
  target_command : List ℕ

/-- The `theta`-NaN repair of `__getitem__` (lines 70-72):
`if np.isnan(self.theta[index][0]): self.theta[index][0] = 0.` -/
noncomputable def fixTheta (theta : List NpFloat) (index : ℕ) : List NpFloat :=
  if (theta.getD index (some 0)).isNone then theta.set index (some 0) else theta

/-- `CARLA_Data.__getitem__(index)` from `e2e_driving/data.py`, for an
in-range `index` (out-of-range indexing is prevented by the DataLoader via
`__len__` and is not modelled; reads use `getD`).  The returned pair is
(the produced item, the dataset object after the call's side effects):
the NaN `theta[index][0]` cell is overwritten with `0.` in place, and
`_batch_read_number` is incremented just before the `return`.  A failure
of the `assert command in [0,1,2,3,4,5]` is modelled by a `none` item; the
theta overwrite has already happened at that point, the increment has not. -/
noncomputable def getitem (ds : Dataset) (index : ℕ) : Option ItemData × Dataset :=
  let seed : Option ℕ := if ds.img_aug then some ds.batch_read_number else none
  -- fix for theta=nan in some measurements
  let theta' : List NpFloat := fixTheta ds.theta index
  let ego_x := ds.x.getD index 0
  let ego_y := ds.y.getD index 0
  let ego_theta := (theta'.getD index (some 0)).getD 0
  let R := rot2 (Real.pi / 2 + ego_theta)
  let waypoints := (List.range 4).map fun i =>
    mat2Tvec R ((ds.future_y.getD index []).getD i 0 - ego_y,
                (ds.future_x.getD index []).getD i 0 - ego_x)
  let local_command_point :=
    mat2Tvec R (-(ds.x_command.getD index 0 - ego_x), ds.y_command.getD index 0 - ego_y)
  let target_point := local_command_point
  let local_command_point_aim :=
    mat2Tvec R (ds.y_command.getD index 0 - ego_y, ds.x_command.getD index 0 - ego_x)
  let target_point_aim := local_command_point_aim
  -- data['target_point'] is overwritten with the aim convention before use
  let target_point := local_command_point_aim
  let sp := ds.speed.getD index 0
  let command0 := ds.command.getD index 0
  let command1 : ℤ := if command0 < 0 then 4 else command0
  let command2 : ℤ := command1 - 1
  if command2 ∈ ([0, 1, 2, 3, 4, 5] : List ℤ) then
    let cmd_one_hot := (List.replicate 6 (0 : ℕ)).set command2.toNat 1
    (some { front_img_seed := seed, waypoints := waypoints,
            target_point := target_point, target_point_aim := target_point_aim,
            speed := sp, target_command := cmd_one_hot },
     { ds with theta := theta', batch_read_number := ds.batch_read_number + 1 })
  else
    (none, { ds with theta := theta' })

open scoped Classical

/-- Python's `%` on floats for a positive modulus (floored modulo):
`x % m = x - m * floor(x / m)`; used for `delta_yaw % 360`. -/
noncomputable def pymod (x m : ℝ) : ℝ := x - m * ⌊x / m⌋

/-- The delta_yaw wrapping step of `SimpleVehicleControl._set_new_velocity`
(lines 265-271): one modulo pass applied only when `math.fabs(delta_yaw) >
360`, then one branch correction subtracting or adding 360. -/
noncomputable def wrapDeltaYaw (delta_yaw : ℝ) : ℝ :=
  let d1 := if |delta_yaw| > 360 then pymod delta_yaw 360 else delta_yaw
  if d1 > 180 then d1 - 360
  else if d1 < -180 then d1 + 360
  else d1

/-- `math.degrees`. -/
noncomputable def degrees (x : ℝ) : ℝ := x * 180 / Real.pi

/-- `math.atan2(y, x)`: the argument of the complex number `x + y·i`. -/
noncomputable def atan2 (y x : ℝ) : ℝ := Complex.arg ⟨x, y⟩

/-- The obstacle-aware target-speed adaptation of
`SimpleVehicleControl._set_new_velocity` (lines 227-244): starting from the
nominal `self._target_speed`, adapt when obstacle consideration is active
and the reported obstacle distance is below the proximity threshold.
`elapsed` is `current_time - self._last_update`. -/
noncomputable def adaptedTargetSpeed (considerObstacles : Bool)
    (obstacleDistance proximityThreshold targetSpeed
     currentSpeed currentSpeedOther elapsed : ℝ) : ℝ :=
  if considerObstacles then
    if obstacleDistance < proximityThreshold then
      let distance := max obstacleDistance 0
      if distance > 0 then
        if currentSpeedOther < currentSpeed then
          let acceleration := -0.5 * (currentSpeed - currentSpeedOther) ^ 2 / distance
          max (acceleration * elapsed + currentSpeed) 0
        else targetSpeed
      else 0
    else targetSpeed
  else targetSpeed

/-- `carla.Location.distance`: 3D Euclidean distance, used by the
waypoint-dropping loop of `run_step`. -/
noncomputable def dist3 (p q : Pt3) : ℝ :=
  Real.sqrt ((p.x - q.x) ^ 2 + (p.y - q.y) ^ 2 + (p.z - q.z) ^ 2)

/-- The per-tick simulator inputs read by `run_step` /
`_set_new_velocity`: actor pose and velocity components, obstacle-actor
velocity components, the game time, and the map oracle
(`map.get_waypoint` as `mapWaypointAt` / `mapYawAt`, and the first element
of `waypoint.next(3.0)` as `mapNext`, `none` when `next` returns no
successor). -/
structure Env where
  actorLocation : Pt3
  actorYaw : ℝ
  actorVelX : ℝ
  actorVelY : ℝ
  obstacleVelX : ℝ
  obstacleVelY : ℝ
  currentTime : ℝ
  mapNext : Pt3 → Option Pt3
  mapWaypointAt : Pt3 → Pt3
  mapYawAt : Pt3 → ℝ

/-- The mutable attributes of `SimpleVehicleControl` (with those inherited
from `BasicControl`) that `run_step` reads or writes: the external
`_waypoints` list, the internally `_generated_waypoint_list`,
`_reached_goal`, `_last_update`, the nominal `_target_speed`, and the
obstacle configuration/reading. -/
structure VehicleState where
  waypoints : List Pt3
  generatedWaypointList : List Pt3
  reachedGoal : Bool
  lastUpdate : Option ℝ
  targetSpeed : ℝ
  considerObstacles : Bool
  proximityThreshold : ℝ
  obstacleDistance : ℝ

/-- The commands emitted to the simulator on one tick:
`set_target_velocity` (x and y components; z is always 0) and
`set_target_angular_velocity` (z component; `none` when the tick returned
before setting it, as the reached-goal branch does). -/
structure Cmd where
  linearX : ℝ
  linearY : ℝ
  angularZ : Option ℝ

/-- The internal waypoint-generation loop of `run_step` (lines 186-192):
extend the buffer by the first element of `next(3.0)` of the last waypoint
until it holds 50 points or `next` returns no successor. -/
noncomputable def genLoop (next : Pt3 → Option Pt3) (cur : Pt3)
    (acc : List Pt3) : List Pt3 :=
  if acc.length < 50 then
    match next cur with
    | some w => genLoop next w (acc ++ [w])
    | none => acc
  else acc
termination_by 50 - acc.length
decreasing_by simp; omega

/-- `SimpleVehicleControl._set_new_velocity(next_location)`:
obstacle-adapted target speed, linear velocity along the (2D) direction to
`next_location`, and angular velocity from the wrapped heading error.
Returns `some (emitted command, direction_norm, new _last_update)`;
`none` models the `ZeroDivisionError` Python raises at
`direction.x / direction_norm` when the 2D direction norm is zero (the
code has no epsilon guard). -/
noncomputable def setNewVelocity (env : Env) (s : VehicleState)
    (nextLocation : Pt3) : Option (Cmd × ℝ × ℝ) :=
  let currentTime := env.currentTime
  -- `if not self._last_update:` — falsy for both None and 0.0
  let lastUpdate : ℝ :=
    match s.lastUpdate with
    | none => currentTime
    | some t => if t = 0 then currentTime else t
  let currentSpeed := Real.sqrt (env.actorVelX ^ 2 + env.actorVelY ^ 2)
  let currentSpeedOther := Real.sqrt (env.obstacleVelX ^ 2 + env.obstacleVelY ^ 2)
  let targetSpeed := adaptedTargetSpeed s.considerObstacles s.obstacleDistance
    s.proximityThreshold s.targetSpeed currentSpeed currentSpeedOther
    (currentTime - lastUpdate)
  let dirX := nextLocation.x - env.actorLocation.x
  let dirY := nextLocation.y - env.actorLocation.y
  let directionNorm := Real.sqrt (dirX ^ 2 + dirY ^ 2)
  if directionNorm = 0 then none
  else
    let velX := dirX / directionNorm * targetSpeed
    let velY := dirY / directionNorm * targetSpeed
    let currentYaw := env.actorYaw
    -- with a waypoint list use the direction between the waypoints,
    -- otherwise use the map waypoint heading directly
    let deltaYaw0 :=
      if s.waypoints.isEmpty then env.mapYawAt nextLocation - currentYaw
      else degrees (atan2 dirY dirX) - currentYaw
    let deltaYaw := wrapDeltaYaw deltaYaw0
    let angularZ := if targetSpeed = 0 then 0
                    else deltaYaw / (directionNorm / targetSpeed)
    some ({ linearX := velX, linearY := velY, angularZ := some angularZ },
          directionNorm, currentTime)

/-- `SimpleVehicleControl.run_step()`: one tick of the controller.
Returns `some (state after the tick, emitted command)`; `none` models an
uncaught Python exception during the tick (the `IndexError` of targeting
`[0]` of an empty list, or the `ZeroDivisionError` of `_set_new_velocity`). -/
noncomputable def runStep (env : Env) (s : VehicleState) :
    Option (VehicleState × Cmd) :=
  if s.reachedGoal then
    -- reached the goal, so stop (no angular velocity is set on this path)
    some (s, { linearX := 0, linearY := 0, angularZ := none })
  else
    if s.waypoints.isEmpty then
      -- no waypoints provided: extend the internally generated list from the map
      let seedLoc :=
        match s.generatedWaypointList.getLast? with
        | none => env.mapWaypointAt env.actorLocation
        | some p => env.mapWaypointAt p
      let gen := genLoop env.mapNext seedLoc s.generatedWaypointList
      match gen with
      | [] => none
      | w :: rest =>
        match setNewVelocity env s w with
        | none => none
        | some (cmd, directionNorm, lu) =>
          let gen2 := if directionNorm < 2.0 then rest else w :: rest
          some ({ s with generatedWaypointList := gen2, reachedGoal := false,
                         lastUpdate := some lu }, cmd)
    else
      -- drop leading waypoints that are too close to the ego vehicle
      let wps := s.waypoints.dropWhile fun v => decide (dist3 v env.actorLocation < 0.5)
      match wps with
      | [] => none
      | w :: rest =>
        match setNewVelocity env { s with waypoints := w :: rest } w with
        | none => none
        | some (cmd, directionNorm, lu) =>
          if directionNorm < 4.0 then
            some ({ s with waypoints := rest, reachedGoal := rest.isEmpty,
                           lastUpdate := some lu }, cmd)
          else
            some ({ s with waypoints := w :: rest, reachedGoal := false,
                           lastUpdate := some lu }, cmd)

/-- A one-sample dataset fixture with command `c`, theta cell `th` and
image-augmentation flag `aug`, used to run the accessor on concrete input. -/
noncomputable def mkDs (c : ℤ) (th : NpFloat) (aug : Bool) : Dataset :=
  { front_img := [0], x := [1], y := [2], theta := [th], speed := [3],
    future_x := [[0, 1, 2, 3]], future_y := [[0, 1, 2, 3]],
    x_command := [4], y_command := [5], command := [c],
    img_aug := aug, batch_read_number := 0 }

/-- Concrete tick inputs used to run the controller on concrete states:
actor at the origin with yaw 0 and zero velocity, game time 0, a map
oracle whose `next` always comes back empty, and identity projection. -/
noncomputable def envA : Env :=
  { actorLocation := ⟨0, 0, 0⟩, actorYaw := 0, actorVelX := 0, actorVelY := 0,
    obstacleVelX := 0, obstacleVelY := 0, currentTime := 0,
    mapNext := fun _ => none, mapWaypointAt := fun p => p,
    mapYawAt := fun _ => 0 }

/-- External-route state: first waypoint 0.3 units from the actor (to be
dropped), second at distance 3; nominal target speed 5; obstacles off. -/
noncomputable def stExternal : VehicleState :=
  { waypoints := [⟨0.3, 0, 0⟩, ⟨3, 0, 0⟩], generatedWaypointList := [],
    reachedGoal := false, lastUpdate := none, targetSpeed := 5,
    considerObstacles := false, proximityThreshold := 0, obstacleDistance := 0 }

/-- Free-driving state with one internally generated waypoint at distance 3. -/
noncomputable def stInternal : VehicleState :=
  { stExternal with waypoints := [], generatedWaypointList := [⟨3, 0, 0⟩] }

/-- A state that has already reached its goal. -/
noncomputable def stGoal : VehicleState :=
  { stExternal with reachedGoal := true }

/-- Free-driving state whose only internally generated waypoint coincides
with the actor's location in x and y. -/
noncomputable def stDivZero : VehicleState :=
  { stExternal with waypoints := [], generatedWaypointList := [⟨0, 0, 0⟩] }

/-- Free-driving state with no waypoints at all. -/
noncomputable def stEmpty : VehicleState :=
  { stExternal with waypoints := [], generatedWaypointList := [] }

/-- The command emitted when driving from the origin straight toward
`(3, 0)` at target speed 5 with zero heading error. -/
noncomputable def cmdFwd : Cmd := { linearX := 5, linearY := 0, angularZ := some 0 }

/-- The dataset fixture for the double-read experiment: NaN theta,
command 3, augmentation on. -/
noncomputable def dsW10 : Dataset := mkDs 3 none true

/-- Cramer: applying the adjugate inverse after a matrix with nonzero
determinant is the identity. -/
theorem apply3_inv3 (m : Mat3) (p : Pt3) (hm : det3 m ≠ 0) :
    apply3 (inv3 m) (apply3 m p) = p := by
  obtain ⟨ma, mb, mc, md, me, mf, mg, mh, mi⟩ := m
  obtain ⟨x, y, z⟩ := p
  simp only [det3] at hm
  simp only [apply3, inv3, det3, Pt3.mk.injEq]
  refine ⟨?_, ?_, ?_⟩ <;> field_simp <;> ring

/-- The determinant of the frame matrix of `transform_2d_points` is
`cos² + sin² = 1`. -/
theorem det3_rToWorld (r tx ty : ℝ) : det3 (rToWorld r tx ty) = 1 := by
  simp only [det3, rToWorld]
  have h := Real.cos_sq_add_sin_sq r
  ring_nf
  linarith [h]

/-- C1: round-trip law of the frame transform.  Mapping a batch of points
through a frame's rotation+translation to world and back through the
inverse of the same frame's rotation+translation returns the original
points (x and y restored exactly over the reals, z restored from the
input); and the world→agent transform `R.T.dot` built in `__getitem__`
from the `π/2 + θ` rotation is inverted exactly by the corresponding
agent→world transform `R.dot`. -/
theorem transform_2d_points_roundTrip :
    (∀ (xyz : List Pt3) (r tx ty : ℝ),
        transform_2d_points xyz r tx ty r tx ty = xyz)
    ∧ ∀ (theta : ℝ) (v : ℝ × ℝ),
        mat2vec (rot2 (Real.pi / 2 + theta))
          (mat2Tvec (rot2 (Real.pi / 2 + theta)) v) = v := by
  constructor
  · intro xyz r tx ty
    have hpoint : ∀ p : Pt3,
        (fun p : Pt3 =>
          let xy1 : Pt3 := { x := p.x, y := p.y, z := 1 }
          let world := apply3 (rToWorld r tx ty) xy1
          let out := apply3 (inv3 (rToWorld r tx ty)) world
          ({ x := out.x, y := out.y, z := p.z } : Pt3)) p = p := by
      intro p
      show ({ x := (apply3 (inv3 (rToWorld r tx ty))
                (apply3 (rToWorld r tx ty) ⟨p.x, p.y, 1⟩)).x,
              y := (apply3 (inv3 (rToWorld r tx ty))
                (apply3 (rToWorld r tx ty) ⟨p.x, p.y, 1⟩)).y,
              z := p.z } : Pt3) = p
      rw [apply3_inv3 (rToWorld r tx ty) ⟨p.x, p.y, 1⟩
        (by rw [det3_rToWorld]; norm_num)]
    rw [transform_2d_points, funext hpoint, List.map_id']
  · intro theta v
    obtain ⟨v1, v2⟩ := v
    have h := Real.cos_sq_add_sin_sq (Real.pi / 2 + theta)
    simp only [mat2vec, mat2Tvec, rot2, Prod.mk.injEq]
    constructor
    · linear_combination v1 * h
    · linear_combination v2 * h

/-- C2: obstacle-aware speed shaping.  With obstacle consideration
enabled, obstacle distance `d`, proximity threshold `t`, nominal speed
`ts`, ego speed `v`, obstacle speed `vo` and elapsed time `e`: at `d ≥ t`
the commanded speed is the nominal `ts`; at `0 < d < t` with `vo < v` it
is `max (-0.5·(v-vo)²/d·e + v) 0`; at `d ≤ 0 < t` it is `0`; and at
`vo ≥ v` (with `0 < d < t`) it is the nominal `ts`. -/
theorem adaptedTargetSpeed_cases (d t ts v vo e : ℝ) :
    (t ≤ d → adaptedTargetSpeed true d t ts v vo e = ts)
    ∧ (0 < d → d < t → vo < v →
        adaptedTargetSpeed true d t ts v vo e
          = max (-0.5 * (v - vo) ^ 2 / d * e + v) 0)
    ∧ (d ≤ 0 → d < t → adaptedTargetSpeed true d t ts v vo e = 0)
    ∧ (v ≤ vo → 0 < d → d < t → adaptedTargetSpeed true d t ts v vo e = ts) := by
  refine ⟨fun h => ?_, fun hd hdt hvo => ?_, fun hd hdt => ?_,
    fun hvv hd hdt => ?_⟩
  · simp [adaptedTargetSpeed, not_lt.mpr h]
  · simp only [adaptedTargetSpeed, if_pos hdt, if_true, max_eq_left hd.le,
      if_pos hd, if_pos hvo]
  · simp [adaptedTargetSpeed, hdt, max_eq_right hd]
  · simp [adaptedTargetSpeed, hdt, max_eq_left hd.le, hd, not_lt.mpr hvv]

/-- Witness for C2 at `d = 10`, `t = 20`, `ts = 7`, `v = 10`, `vo = 0`,
`e = 1`: the constant-deceleration profile commands speed 5. -/
theorem adaptedTargetSpeed_cases_witness :
    adaptedTargetSpeed true 10 20 7 10 0 1 = 5 := by
  have h := (adaptedTargetSpeed_cases 10 20 7 10 0 1).2.1
    (by norm_num) (by norm_num) (by norm_num)
  rw [h, show (-0.5 * ((10 : ℝ) - 0) ^ 2 / 10 * 1 + 10) = 5 by norm_num,
    max_eq_left (by norm_num : (0 : ℝ) ≤ 5)]

/-- Counterexample to C3: the wrapping step maps the input exactly `-180`
to `-180`, which does not lie in the half-open interval `(-180, 180]`. -/
theorem wrapDeltaYaw_neg180_not_mem_Ioc :
    wrapDeltaYaw (-180) ∉ Set.Ioc (-180 : ℝ) 180 := by
  have habs : |(-180 : ℝ)| = 180 := by
    rw [abs_of_nonpos (by norm_num)]; norm_num
  have h : wrapDeltaYaw (-180) = -180 := by
    unfold wrapDeltaYaw
    rw [if_neg (by rw [habs]; norm_num), if_neg (by norm_num),
      if_neg (by norm_num)]
  rw [h]
  simp [Set.mem_Ioc]

/-- C3 (amended): the wrapping step maps 180, -180, 359, -359 and 720.5 to
180, -180, -1, 1 and 0.5 respectively; all lie in the closed interval
[-180, 180], and all but the image of -180 lie in (-180, 180]. -/
theorem wrapDeltaYaw_concrete :
    wrapDeltaYaw 180 = 180 ∧ wrapDeltaYaw (-180) = -180
    ∧ wrapDeltaYaw 359 = -1 ∧ wrapDeltaYaw (-359) = 1
    ∧ wrapDeltaYaw 720.5 = 0.5
    ∧ (∀ x ∈ ([180, -180, 359, -359, 720.5] : List ℝ),
        wrapDeltaYaw x ∈ Set.Icc (-180 : ℝ) 180)
    ∧ (∀ x ∈ ([180, 359, -359, 720.5] : List ℝ),
        wrapDeltaYaw x ∈ Set.Ioc (-180 : ℝ) 180) := by
  have h180 : wrapDeltaYaw 180 = 180 := by
    unfold wrapDeltaYaw
    rw [if_neg (by rw [abs_of_nonneg (by norm_num)]; norm_num),
      if_neg (by norm_num), if_neg (by norm_num)]
  have hm180 : wrapDeltaYaw (-180) = -180 := by
    unfold wrapDeltaYaw
    rw [if_neg (by rw [abs_of_nonpos (by norm_num)]; norm_num),
      if_neg (by norm_num), if_neg (by norm_num)]
  have h359 : wrapDeltaYaw 359 = -1 := by
    have h1 : ¬ (|(359 : ℝ)| > 360) := by
      rw [abs_of_nonneg (by norm_num)]; norm_num
    have h2 : (359 : ℝ) > 180 := by norm_num
    unfold wrapDeltaYaw
    rw [if_neg h1, if_pos h2]
    norm_num
  have hm359 : wrapDeltaYaw (-359) = 1 := by
    have h1 : ¬ (|(-359 : ℝ)| > 360) := by
      rw [abs_of_nonpos (by norm_num)]; norm_num
    have h2 : ¬ ((-359 : ℝ) > 180) := by norm_num
    have h3 : (-359 : ℝ) < -180 := by norm_num
    unfold wrapDeltaYaw
    rw [if_neg h1, if_neg h2, if_pos h3]
    norm_num
  have hfloor : ⌊(720.5 : ℝ) / 360⌋ = 2 := by
    rw [Int.floor_eq_iff] <;> norm_num
  have hmod : pymod 720.5 360 = 0.5 := by
    unfold pymod
    rw [hfloor]; norm_num
  have h720 : wrapDeltaYaw 720.5 = 0.5 := by
    have habs : |(720.5 : ℝ)| > 360 := by
      rw [abs_of_nonneg (by norm_num)]; norm_num
    unfold wrapDeltaYaw
    rw [if_pos habs, hmod, if_neg (by norm_num), if_neg (by norm_num)]
  refine ⟨h180, hm180, h359, hm359, h720, ?_, ?_⟩
  · intro x hx
    simp only [List.mem_cons, List.not_mem_nil, or_false] at hx
    rcases hx with rfl | rfl | rfl | rfl | rfl
    · rw [h180]; constructor <;> norm_num
    · rw [hm180]; constructor <;> norm_num
    · rw [h359]; constructor <;> norm_num
    · rw [hm359]; constructor <;> norm_num
    · rw [h720]; constructor <;> norm_num
  · intro x hx
    simp only [List.mem_cons, List.not_mem_nil, or_false] at hx
    rcases hx with rfl | rfl | rfl | rfl
    · rw [h180]; constructor <;> norm_num
    · rw [h359]; constructor <;> norm_num
    · rw [hm359]; constructor <;> norm_num
    · rw [h720]; constructor <;> norm_num

/-- The wrapping step fixes a zero heading error. -/
theorem wrapDeltaYaw_zero : wrapDeltaYaw 0 = 0 := by
  have h1 : ¬ (|(0 : ℝ)| > 360) := by rw [abs_zero]; norm_num
  have h2 : ¬ ((0 : ℝ) > 180) := by norm_num
  have h3 : ¬ ((0 : ℝ) < -180) := by norm_num
  unfold wrapDeltaYaw
  rw [if_neg h1, if_neg h2, if_neg h3]

/-- `atan2 0 3 = 0`: driving straight along +x has zero heading. -/
theorem atan2_zero_three : atan2 0 3 = 0 := by
  unfold atan2
  rw [show (⟨3, 0⟩ : ℂ) = ((3 : ℝ) : ℂ) from rfl]
  exact Complex.arg_ofReal_of_nonneg (by norm_num)

/-- Evaluation of the velocity computation on the external-route fixture:
target `(3,0,0)` from the origin at nominal speed 5 commands velocity
`(5, 0)` with zero angular rate; the direction norm is 3. -/
theorem setNewVelocity_fwd_external :
    setNewVelocity envA { stExternal with waypoints := [⟨3, 0, 0⟩] } ⟨3, 0, 0⟩
      = some (cmdFwd, 3, 0) := by
  have hsq3 : Real.sqrt (((3 : ℝ) - 0) ^ 2 + ((0 : ℝ) - 0) ^ 2) = 3 := by
    rw [show ((3 : ℝ) - 0) ^ 2 + ((0 : ℝ) - 0) ^ 2 = 3 ^ 2 by norm_num]
    exact Real.sqrt_sq (by norm_num)
  unfold setNewVelocity
  simp only [envA, stExternal, adaptedTargetSpeed, degrees, cmdFwd, hsq3]
  norm_num [atan2_zero_three, wrapDeltaYaw_zero]

/-- Evaluation of the velocity computation on the free-driving fixture:
same target and speed, heading error taken from the map oracle's yaw. -/
theorem setNewVelocity_fwd_internal :
    setNewVelocity envA stInternal ⟨3, 0, 0⟩ = some (cmdFwd, 3, 0) := by
  have hsq3 : Real.sqrt (((3 : ℝ) - 0) ^ 2 + ((0 : ℝ) - 0) ^ 2) = 3 := by
    rw [show ((3 : ℝ) - 0) ^ 2 + ((0 : ℝ) - 0) ^ 2 = 3 ^ 2 by norm_num]
    exact Real.sqrt_sq (by norm_num)
  unfold setNewVelocity
  simp only [envA, stInternal, stExternal, adaptedTargetSpeed, degrees, cmdFwd, hsq3]
  norm_num [wrapDeltaYaw_zero]

/-- Counterexample to C4: with the actor at the origin and the only
internally generated waypoint at the same x,y, the tick's velocity
computation divides by a zero direction norm and the tick faults
(`ZeroDivisionError`, modelled by `none`); nothing treats the zero-length
direction as goal-reached or a zero command. -/
theorem runStep_zero_direction_faults : runStep envA stDivZero = none := by
  have hsq0 : Real.sqrt (((0 : ℝ) - 0) ^ 2 + ((0 : ℝ) - 0) ^ 2) = 0 := by
    rw [show ((0 : ℝ) - 0) ^ 2 + ((0 : ℝ) - 0) ^ 2 = 0 by norm_num]
    exact Real.sqrt_zero
  unfold runStep genLoop setNewVelocity
  simp [envA, stDivZero, stExternal, hsq0]

/-- C9: goal-reached is terminal.  On every tick entered with
`reached_goal` true, the controller emits zero linear velocity, sets no
angular velocity, and changes no state: the same `VehicleState` (with
`reached_goal` still true, no waypoint consumed, `last_update` untouched)
comes out. -/
theorem runStep_goal_terminal (env : Env) (s : VehicleState)
    (h : s.reachedGoal = true) :
    runStep env s = some (s, { linearX := 0, linearY := 0, angularZ := none }) := by
  unfold runStep
  rw [if_pos h]

/-- Witness for C9 on the concrete goal-reached fixture. -/
theorem runStep_goal_terminal_witness :
    runStep envA stGoal
      = some (stGoal, { linearX := 0, linearY := 0, angularZ := none }) :=
  runStep_goal_terminal envA stGoal rfl

/-- Counterexample to C8: on a tick with no external waypoints, an empty
generated buffer and a map oracle that returns no successor, the tick does
not complete: targeting `_generated_waypoint_list[0]` of the empty buffer
raises an `IndexError` (modelled by `none`). -/
theorem runStep_empty_buffer_faults : runStep envA stEmpty = none := by
  unfold runStep genLoop
  simp [envA, stEmpty, stExternal]

/-- C7: waypoint advance.  On a tick with a non-empty external waypoint
list: every leading waypoint dropped is at (3D) distance below 0.5 and
only the leading close prefix is dropped, so the first remaining waypoint
is targeted; after the velocity command is issued the targeted external
waypoint is popped iff its direction norm is below 4.0, and `reached_goal`
becomes true on the same tick iff popping left the list empty.  On a tick
with no external list, the targeted internally generated waypoint is
popped iff its direction norm is below 2.0. -/
theorem runStep_waypoint_advance (env : Env) (s : VehicleState) (w : Pt3)
    (rest : List Pt3) (cmd : Cmd) (dn lu : ℝ)
    (hg : s.reachedGoal = false)
    (hne : s.waypoints ≠ [])
    (hdrop : s.waypoints.dropWhile
        (fun v => decide (dist3 v env.actorLocation < 0.5)) = w :: rest)
    (hv : setNewVelocity env { s with waypoints := w :: rest } w
        = some (cmd, dn, lu)) :
    (∀ v ∈ s.waypoints.takeWhile
        (fun v => decide (dist3 v env.actorLocation < 0.5)),
        dist3 v env.actorLocation < 0.5)
    ∧ s.waypoints.takeWhile
        (fun v => decide (dist3 v env.actorLocation < 0.5)) ++ w :: rest
        = s.waypoints
    ∧ runStep env s =
        (if dn < 4.0 then
          some ({ s with waypoints := rest, reachedGoal := rest.isEmpty,
                         lastUpdate := some lu }, cmd)
         else
          some ({ s with waypoints := w :: rest, reachedGoal := false,
                         lastUpdate := some lu }, cmd))
    ∧ (∀ (s2 : VehicleState) (w2 : Pt3) (rest2 : List Pt3) (cmd2 : Cmd)
          (dn2 lu2 : ℝ),
        s2.reachedGoal = false → s2.waypoints = [] →
        genLoop env.mapNext
          (match s2.generatedWaypointList.getLast? with
           | none => env.mapWaypointAt env.actorLocation
           | some p => env.mapWaypointAt p) s2.generatedWaypointList
          = w2 :: rest2 →
        setNewVelocity env s2 w2 = some (cmd2, dn2, lu2) →
        runStep env s2 =
          (if dn2 < 2.0 then
            some ({ s2 with generatedWaypointList := rest2,
                            reachedGoal := false, lastUpdate := some lu2 }, cmd2)
           else
            some ({ s2 with generatedWaypointList := w2 :: rest2,
                            reachedGoal := false, lastUpdate := some lu2 }, cmd2))) := by
  have hef : s.waypoints.isEmpty = false := by
    cases hs : s.waypoints with
    | nil => exact absurd hs hne
    | cons a l => rfl
  refine ⟨?_, ?_, ?_, ?_⟩
  · intro v hv'
    have h1 := @List.mem_takeWhile_imp _
      (fun v => decide (dist3 v env.actorLocation < 0.5)) s.waypoints v hv'
    simpa using h1
  · rw [← hdrop, List.takeWhile_append_dropWhile]
  · have hv' := hv
    simp only [hg] at hv'
    unfold runStep
    simp only [hg, hef, Bool.false_eq_true, if_false, List.isEmpty_nil,
      hdrop, hv']
  · intro s2 w2 rest2 cmd2 dn2 lu2 hg2 hw2 hgen hv2
    have hef2 : s2.waypoints.isEmpty = true := by rw [hw2]; rfl
    unfold runStep
    simp only [hg2, hef2, Bool.false_eq_true, if_false, if_true, hgen, hv2]
    split <;> rfl

/-- Witness for C7: on the concrete fixture the 0.3-distant leading
waypoint is dropped, the 3-distant waypoint is targeted and popped
(3 < 4), and the emptied list sets `reached_goal` on the same tick. -/
theorem runStep_waypoint_advance_witness :
    runStep envA stExternal
      = some ({ stExternal with
                  waypoints := []
                  reachedGoal := true
                  lastUpdate := some 0 }, cmdFwd) := by
  have hd1 : dist3 ⟨0.3, 0, 0⟩ envA.actorLocation < 0.5 := by
    show Real.sqrt (((0.3 : ℝ) - 0) ^ 2 + ((0 : ℝ) - 0) ^ 2 + ((0 : ℝ) - 0) ^ 2)
      < 0.5
    rw [show ((0.3 : ℝ) - 0) ^ 2 + ((0 : ℝ) - 0) ^ 2 + ((0 : ℝ) - 0) ^ 2
        = 0.3 ^ 2 by norm_num, Real.sqrt_sq (by norm_num)]
    norm_num
  have hd2 : ¬ dist3 ⟨3, 0, 0⟩ envA.actorLocation < 0.5 := by
    show ¬ Real.sqrt (((3 : ℝ) - 0) ^ 2 + ((0 : ℝ) - 0) ^ 2 + ((0 : ℝ) - 0) ^ 2)
      < 0.5
    rw [show ((3 : ℝ) - 0) ^ 2 + ((0 : ℝ) - 0) ^ 2 + ((0 : ℝ) - 0) ^ 2
        = 3 ^ 2 by norm_num, Real.sqrt_sq (by norm_num)]
    norm_num
  have hdrop : stExternal.waypoints.dropWhile
      (fun v => decide (dist3 v envA.actorLocation < 0.5)) = [⟨3, 0, 0⟩] := by
    show List.dropWhile (fun v => decide (dist3 v envA.actorLocation < 0.5))
      [(⟨0.3, 0, 0⟩ : Pt3), ⟨3, 0, 0⟩] = [⟨3, 0, 0⟩]
    rw [List.dropWhile_cons_of_pos (by simpa using hd1),
      List.dropWhile_cons_of_neg (by simpa using hd2)]
  have h := runStep_waypoint_advance envA stExternal ⟨3, 0, 0⟩ [] cmdFwd 3 0
    rfl (by simp [stExternal]) hdrop setNewVelocity_fwd_external
  have h3 := h.2.2.1
  rw [if_pos (by norm_num : (3 : ℝ) < 4.0)] at h3
  simpa using h3

/-- C8 (amended): internal waypoint generation is graceful up to a
non-empty buffer.  The generation loop never grows the buffer past 50
points; when the oracle returns no successor the loop stops early,
returning the buffer unchanged, without raising; on a tick with no
external waypoints and an empty-result oracle, the tick completes without
error whenever the buffer is non-empty (and the velocity computation
succeeds), but an empty resulting buffer makes the tick fail with an
index error when it is targeted. -/
theorem runStep_generation (env : Env) (s : VehicleState)
    (hg : s.reachedGoal = false) (hw : s.waypoints = [])
    (hnone : ∀ p, env.mapNext p = none) :
    (∀ (next : Pt3 → Option Pt3) (cur : Pt3) (acc : List Pt3),
        acc.length ≤ 50 → (genLoop next cur acc).length ≤ 50)
    ∧ (∀ (cur : Pt3) (acc : List Pt3), genLoop env.mapNext cur acc = acc)
    ∧ (s.generatedWaypointList = [] → runStep env s = none)
    ∧ (∀ (w : Pt3) (rest : List Pt3) (cmd : Cmd) (dn lu : ℝ),
        s.generatedWaypointList = w :: rest →
        setNewVelocity env s w = some (cmd, dn, lu) →
        ∃ s' c', runStep env s = some (s', c')) := by
  have hef : s.waypoints.isEmpty = true := by rw [hw]; rfl
  have hstop : ∀ (cur : Pt3) (acc : List Pt3),
      genLoop env.mapNext cur acc = acc := by
    intro cur acc
    rw [genLoop]
    by_cases hlen : acc.length < 50
    · rw [if_pos hlen]
      simp only [hnone cur]
    · rw [if_neg hlen]
  refine ⟨?_, hstop, ?_, ?_⟩
  · have hbound : ∀ (n : ℕ) (next : Pt3 → Option Pt3) (cur : Pt3)
        (acc : List Pt3), 50 - acc.length ≤ n → acc.length ≤ 50 →
        (genLoop next cur acc).length ≤ 50 := by
      intro n
      induction n with
      | zero =>
        intro next cur acc hn hle
        rw [genLoop, if_neg (by omega : ¬ acc.length < 50)]
        exact hle
      | succ n ih =>
        intro next cur acc hn hle
        rw [genLoop]
        by_cases hlt : acc.length < 50
        · rw [if_pos hlt]
          cases hnx : next cur with
          | none => exact hle
          | some w =>
            have hlen1 : (acc ++ [w]).length = acc.length + 1 := by simp
            exact ih next w (acc ++ [w]) (by omega) (by omega)
        · rw [if_neg hlt]; exact hle
    intro next cur acc hle
    exact hbound (50 - acc.length) next cur acc le_rfl hle
  · intro hgen
    unfold runStep
    simp only [hg, hef, Bool.false_eq_true, if_false, if_true, hgen, hstop,
      List.getLast?_nil]
  · intro w rest cmd dn lu hgen hv
    have hrun : runStep env s =
        (if dn < 2.0 then
          some ({ s with generatedWaypointList := rest, reachedGoal := false,
                         lastUpdate := some lu }, cmd)
         else
          some ({ s with generatedWaypointList := w :: rest,
                         reachedGoal := false, lastUpdate := some lu }, cmd)) := by
      unfold runStep
      simp only [hg, hef, Bool.false_eq_true, if_false, if_true, hstop, hgen, hv]
      split <;> rfl
    by_cases h2 : dn < 2.0
    · exact ⟨_, _, by rw [hrun, if_pos h2]⟩
    · exact ⟨_, _, by rw [hrun, if_neg h2]⟩

/-- Witness for C8 on the concrete free-driving fixture: the oracle
returns no successor, the single buffered waypoint is targeted, and the
tick completes without error. -/
theorem runStep_generation_witness :
    ∃ s' c', runStep envA stInternal = some (s', c') := by
  have h := runStep_generation envA stInternal rfl rfl (fun p => rfl)
  exact h.2.2.2 ⟨3, 0, 0⟩ [] cmdFwd 3 0 rfl setNewVelocity_fwd_internal

/-- Counterexample to C5: the command code `-2` lies outside
`{1,...,6,-1}` yet the accessor does not fail: the `command < 0` test
treats every negative code like `-1`, producing the one-hot vector with
index 3 set. -/
theorem getitem_command_neg2_no_error :
    (getitem (mkDs (-2) (some 0) false) 0).1 ≠ none
    ∧ ((getitem (mkDs (-2) (some 0) false) 0).1.map ItemData.target_command)
        = some [0, 0, 0, 1, 0, 0] := by
  have hmap : ((getitem (mkDs (-2) (some 0) false) 0).1.map
      ItemData.target_command) = some [0, 0, 0, 1, 0, 0] := rfl
  refine ⟨?_, hmap⟩
  intro h
  rw [h] at hmap
  exact Option.noConfusion hmap

/-- C5 (amended): command encoding.  For every command code `c`: when
`(c < 0 ? 4 : c) - 1` lands in `[0, 5]` — i.e. for `c ∈ {1,...,6}` and for
every negative `c`, not just `-1` — the accessor produces a width-6
one-hot vector with exactly that index set; otherwise (`c ≥ 0` outside
`{1,...,6}`) it fails fast with a range (assertion) error. -/
theorem getitem_command_encoding (ds : Dataset) (index : ℕ) (c : ℤ)
    (hc : ds.command.getD index 0 = c) :
    ((if c < 0 then 4 else c) - 1 ∈ ([0, 1, 2, 3, 4, 5] : List ℤ) →
      ∃ d, (getitem ds index).1 = some d
        ∧ d.target_command
            = (List.replicate 6 0).set ((if c < 0 then 4 else c) - 1).toNat 1
        ∧ d.target_command.length = 6
        ∧ ∀ j < 6, (d.target_command.getD j 0 = 1
            ↔ j = ((if c < 0 then 4 else c) - 1).toNat))
    ∧ ((if c < 0 then 4 else c) - 1 ∉ ([0, 1, 2, 3, 4, 5] : List ℤ) →
        (getitem ds index).1 = none) := by
  constructor
  · intro hin
    simp only [getitem, hc]
    rw [if_pos hin]
    refine ⟨_, rfl, rfl, ?_, ?_⟩
    · show ((List.replicate 6 (0 : ℕ)).set
        ((if c < 0 then 4 else c) - 1).toNat 1).length = 6
      rw [List.length_set, List.length_replicate]
    · show ∀ j < 6, (((List.replicate 6 (0 : ℕ)).set
          ((if c < 0 then 4 else c) - 1).toNat 1).getD j 0 = 1
        ↔ j = ((if c < 0 then 4 else c) - 1).toNat)
      simp only [List.mem_cons, List.not_mem_nil, or_false] at hin
      rcases hin with h | h | h | h | h | h <;> rw [h] <;>
        (intro j hj; interval_cases j <;> decide)
  · intro hnin
    simp only [getitem, hc]
    rw [if_neg hnin]

/-- Witness for C5 at command code 5: index 4 is set. -/
theorem getitem_command_encoding_witness :
    ∃ d, (getitem (mkDs 5 (some 0) false) 0).1 = some d
      ∧ d.target_command = [0, 0, 0, 0, 1, 0] := by
  obtain ⟨d, hd, hcmd, -, -⟩ :=
    (getitem_command_encoding (mkDs 5 (some 0) false) 0 5 rfl).1 (by decide)
  exact ⟨d, hd, by rw [hcmd]; rfl⟩

/-- Counterexample to C6: input command `-1` produces the one-hot vector
`[0,0,0,1,0,0]` — index 3 is set and index 4 holds 0, not 1. -/
theorem getitem_void_command_index4_unset :
    ((getitem (mkDs (-1) (some 0) false) 0).1.map
        (fun d => d.target_command.getD 4 0)) = some 0
    ∧ ((getitem (mkDs (-1) (some 0) false) 0).1.map ItemData.target_command)
        = some [0, 0, 0, 1, 0, 0] := ⟨rfl, rfl⟩

/-- C6 (amended): command one-hot concrete cases.  Input `-1` produces the
vector with index 3 set, input `3` the vector with index 2 set, and
inputs `0` and `7` each fail the range assertion. -/
theorem getitem_one_hot_concrete :
    ((getitem (mkDs (-1) (some 0) false) 0).1.map ItemData.target_command)
        = some [0, 0, 0, 1, 0, 0]
    ∧ ((getitem (mkDs 3 (some 0) false) 0).1.map ItemData.target_command)
        = some [0, 0, 1, 0, 0, 0]
    ∧ (getitem (mkDs 0 (some 0) false) 0).1 = none
    ∧ (getitem (mkDs 7 (some 0) false) 0).1 = none := ⟨rfl, rfl, rfl, rfl⟩

/-- After the NaN repair, the theta cell holds the (defaulted) numeric
value: `some 0` if it was NaN, its old value otherwise. -/
theorem fixTheta_getD (theta : List NpFloat) (index : ℕ)
    (h : index < theta.length) :
    (fixTheta theta index).getD index (some 0)
      = some ((theta.getD index (some 0)).getD 0) := by
  unfold fixTheta
  cases hth : theta.getD index (some 0) with
  | none =>
    rw [if_pos (show (none : NpFloat).isNone = true from rfl),
      List.getD_eq_getElem?_getD, List.getElem?_set_self h, Option.getD_some]
    rfl
  | some v =>
    rw [if_neg (by simp), hth]
    rfl

/-- The NaN repair is the identity when the cell is not NaN. -/
theorem fixTheta_of_not_none (theta : List NpFloat) (index : ℕ)
    (h : (theta.getD index (some 0)).isNone = false) :
    fixTheta theta index = theta := by
  unfold fixTheta
  rw [h]
  rfl

/-- The post-call dataset of a successful `__getitem__`: theta repaired in
place and `_batch_read_number` incremented; nothing else. -/
theorem getitem_snd (ds : Dataset) (index : ℕ)
    (hcmd : ((if ds.command.getD index 0 < 0 then 4
        else ds.command.getD index 0) - 1) ∈ ([0, 1, 2, 3, 4, 5] : List ℤ)) :
    (getitem ds index).2
      = { ds with theta := fixTheta ds.theta index,
                  batch_read_number := ds.batch_read_number + 1 } := by
  simp only [getitem]
  rw [if_pos hcmd]

/-- The augmenter seed recorded in a successful `__getitem__` item is the
pre-call `_batch_read_number` (when augmentation is on). -/
theorem getitem_fst_map_seed (ds : Dataset) (index : ℕ)
    (hcmd : ((if ds.command.getD index 0 < 0 then 4
        else ds.command.getD index 0) - 1) ∈ ([0, 1, 2, 3, 4, 5] : List ℤ)) :
    (getitem ds index).1.map ItemData.front_img_seed
      = some (if ds.img_aug then some ds.batch_read_number else none) := by
  simp only [getitem]
  rw [if_pos hcmd]
  rfl

/-- C10: the accessor is not side-effect-free.  For every in-range index
whose command passes the range assertion: a NaN `theta[index][0]` is
permanently overwritten with 0 (a second access reads `some 0` and leaves
theta unchanged); `_batch_read_number` is incremented by each call, so two
successive calls on the same index leave it at +2; with `img_aug` on, the
two calls hand the augmenter different seeds (the old and the incremented
batch number), so the returned image tensors can differ; and all other
stored per-sample fields are unchanged. -/
theorem getitem_side_effects (ds : Dataset) (index : ℕ)
    (hidx : index < ds.theta.length)
    (hcmd : ((if ds.command.getD index 0 < 0 then 4
        else ds.command.getD index 0) - 1) ∈ ([0, 1, 2, 3, 4, 5] : List ℤ)) :
    (ds.theta.getD index (some 0) = none →
        (getitem ds index).2.theta.getD index (some 0) = some 0)
    ∧ (getitem (getitem ds index).2 index).2.theta = (getitem ds index).2.theta
    ∧ (getitem ds index).2.batch_read_number = ds.batch_read_number + 1
    ∧ (getitem (getitem ds index).2 index).2.batch_read_number
        = ds.batch_read_number + 2
    ∧ (ds.img_aug = true →
        (getitem ds index).1.map ItemData.front_img_seed
            = some (some ds.batch_read_number)
        ∧ (getitem (getitem ds index).2 index).1.map ItemData.front_img_seed
            = some (some (ds.batch_read_number + 1)))
    ∧ (getitem ds index).2.x = ds.x
    ∧ (getitem ds index).2.y = ds.y
    ∧ (getitem ds index).2.speed = ds.speed
    ∧ (getitem ds index).2.future_x = ds.future_x
    ∧ (getitem ds index).2.future_y = ds.future_y
    ∧ (getitem ds index).2.command = ds.command
    ∧ (getitem ds index).2.x_command = ds.x_command
    ∧ (getitem ds index).2.y_command = ds.y_command
    ∧ (getitem ds index).2.front_img = ds.front_img := by
  have hsnd := getitem_snd ds index hcmd
  have hcmd2 : ((if ((getitem ds index).2).command.getD index 0 < 0 then 4
      else ((getitem ds index).2).command.getD index 0) - 1)
      ∈ ([0, 1, 2, 3, 4, 5] : List ℤ) := by
    rw [hsnd]; exact hcmd
  have hsnd2 := getitem_snd (getitem ds index).2 index hcmd2
  have hfix := fixTheta_getD ds.theta index hidx
  have hnn : ((fixTheta ds.theta index).getD index (some 0)).isNone = false := by
    rw [hfix]; rfl
  refine ⟨?_, ?_, ?_, ?_, ?_, by rw [hsnd], by rw [hsnd], by rw [hsnd],
    by rw [hsnd], by rw [hsnd], by rw [hsnd], by rw [hsnd], by rw [hsnd],
    by rw [hsnd]⟩
  · intro hnan
    rw [hsnd]
    show (fixTheta ds.theta index).getD index (some 0) = some 0
    rw [hfix, hnan]
    rfl
  · rw [hsnd2, hsnd]
    show fixTheta (fixTheta ds.theta index) index = fixTheta ds.theta index
    exact fixTheta_of_not_none _ _ hnn
  · rw [hsnd]
  · rw [hsnd2, hsnd]
  · intro haug
    constructor
    · rw [getitem_fst_map_seed ds index hcmd, if_pos haug]
    · rw [getitem_fst_map_seed (getitem ds index).2 index hcmd2, hsnd]
      show some (if ds.img_aug then some (ds.batch_read_number + 1) else none)
        = some (some (ds.batch_read_number + 1))
      rw [if_pos haug]

/-- Witness for C10 on the concrete double-read fixture (NaN theta,
command 3, augmentation on, batch number 0). -/
theorem getitem_side_effects_witness :
    (getitem dsW10 0).2.theta.getD 0 (some 0) = some 0
    ∧ (getitem dsW10 0).2.batch_read_number = 1
    ∧ (getitem (getitem dsW10 0).2 0).2.batch_read_number = 2
    ∧ (getitem dsW10 0).1.map ItemData.front_img_seed = some (some 0) := by
  have h := getitem_side_effects dsW10 0 (by norm_num [dsW10, mkDs]) (by decide)
  exact ⟨h.1 rfl, h.2.2.1, h.2.2.2.1, (h.2.2.2.2.1 rfl).1⟩

/-- C4 (amended): the velocity computation has no epsilon guard — it
raises a division-by-zero fault exactly when the 2D displacement from the
current location to the target location is zero, and completes without a
division fault in every other case; no goal-reached / zero-command
treatment of the degenerate direction exists in the code. -/
theorem setNewVelocity_fault_iff (env : Env) (s : VehicleState) (next : Pt3) :
    (setNewVelocity env s next = none
      ↔ (next.x - env.actorLocation.x = 0 ∧ next.y - env.actorLocation.y = 0)) := by
  have hkey : Real.sqrt ((next.x - env.actorLocation.x) ^ 2
        + (next.y - env.actorLocation.y) ^ 2) = 0
      ↔ (next.x - env.actorLocation.x = 0 ∧ next.y - env.actorLocation.y = 0) := by
    rw [Real.sqrt_eq_zero (by positivity)]
    constructor
    · intro h
      constructor <;>
        nlinarith [sq_nonneg (next.x - env.actorLocation.x),
          sq_nonneg (next.y - env.actorLocation.y)]
    · rintro ⟨h1, h2⟩
      rw [h1, h2]
      ring
  rw [← hkey]
  unfold setNewVelocity
  by_cases h : Real.sqrt ((next.x - env.actorLocation.x) ^ 2
      + (next.y - env.actorLocation.y) ^ 2) = 0
  · rw [if_pos h]
    simp [h]
  · rw [if_neg h]
    simp [h]
